import Mathlib

set_option maxHeartbeats 1000000
set_option maxRecDepth 4000

/-!
Shallow embedding of the Suvari pricing-intelligence Cloud Function
(src/pricing-intelligence-engine/cloud-functions/main.py).

Rows returned by the warehouse are modelled as association lists of
`Value`s (null, string, or number).  Python numbers (int and float) are
modelled as rationals; binary floating-point rounding inside formatted
strings is abstracted by exact rational rounding.  Python statements that
can raise (dict indexing, `sum` over non-numeric values, ordered
comparison of mixed types, `int()` conversion) are modelled in the
`Except String` monad, the carried string being the exception class name.
-/

/-- Scalar cell value of a JSON body or of a BigQuery result row. -/
inductive Value where
  | null : Value
  | str : String → Value
  | num : Rat → Value
deriving DecidableEq, Repr

/-- One result row (Python dict), an association list from column name to value. -/
abbrev Row := List (String × Value)

/-- Python `d.get(key, default)`. -/
def bget (r : Row) (k : String) (d : Value) : Value := (List.lookup k r).getD d

/-- Python `d.get(key)` (default `None` kept as `Option`). -/
def bget? (r : Row) (k : String) : Option Value := List.lookup k r

/-- Whether the first char list starts the second one. -/
def strStarts : List Char → List Char → Bool
  | [], _ => true
  | _ :: _, [] => false
  | a :: as, b :: bs => a == b && strStarts as bs

/-- Helper for substring containment over char lists. -/
def inAux (n : List Char) : List Char → Bool
  | [] => strStarts n []
  | c :: rest => strStarts n (c :: rest) || inAux n rest

/-- Python `needle in hay` on strings (substring containment). -/
def pyIn (needle hay : String) : Bool := inAux needle.toList hay.toList

/-- Python `s.lower()` (ASCII lower-casing, character by character). -/
def lowerStr (s : String) : String := String.mk (s.toList.map Char.toLower)

/-- Helper for splitting on the bar character. -/
def splitBarAux : List Char → List Char → List String
  | [], acc => [String.mk acc.reverse]
  | c :: rest, acc =>
    if c = '|' then String.mk acc.reverse :: splitBarAux rest []
    else splitBarAux rest (c :: acc)

/-- Python `s.split("|")`. -/
def splitBar (s : String) : List String := splitBarAux s.toList []

/-- Python `s.strip()`: whitespace removed from both ends. -/
def trimStr (s : String) : String :=
  String.mk (((s.toList.dropWhile Char.isWhitespace).reverse.dropWhile
    Char.isWhitespace).reverse)

/-- Digit-sequence parser for `int()` of a string. -/
def parseNatAux : List Char → Nat → Option Nat
  | [], acc => some acc
  | c :: rest, acc =>
    if c.isDigit then parseNatAux rest (acc * 10 + (c.toNat - 48)) else none

/-- Python `int(s)` on an already-stripped string: optional sign followed by
at least one digit, anything else raises ValueError. -/
def parseIntStr (s : String) : Option Int :=
  match s.toList with
  | [] => none
  | '-' :: rest =>
    match rest with
    | [] => none
    | _ => (parseNatAux rest 0).map (fun n => -(n : Int))
  | '+' :: rest =>
    match rest with
    | [] => none
    | _ => (parseNatAux rest 0).map (fun n => (n : Int))
  | l => (parseNatAux l 0).map (fun n => (n : Int))

/-- Python `str(v)`.  The textual form of numbers is abstracted; it is never
a label phrase, which is all the analysis code inspects. -/
def pyStr : Value → String
  | .null => "None"
  | .str s => s
  | .num q => if q.den = 1 then toString q.num else toString q

/-- One step of Python `sum`: `acc + v` raises TypeError on non-numbers. -/
def pyAddNum (acc : Rat) : Value → Except String Rat
  | .num q => .ok (acc + q)
  | _ => .error "TypeError"

/-- Python `sum(vs)` starting from the int 0. -/
def pySum (vs : List Value) : Except String Rat := vs.foldlM pyAddNum 0

/-- Lexicographic strict order on char lists (Python string comparison). -/
def charListLt : List Char → List Char → Bool
  | [], [] => false
  | [], _ :: _ => true
  | _ :: _, [] => false
  | a :: as, b :: bs => decide (a < b) || (a == b && charListLt as bs)

/-- Python `a < b` on strings. -/
def pyLtStr (a b : String) : Bool := charListLt a.toList b.toList

/-- Python `a > b` between dynamic values; mixed types raise TypeError. -/
def pyGtVal : Value → Value → Except String Bool
  | .num a, .num b => .ok (decide (b < a))
  | .str a, .str b => .ok (pyLtStr b a)
  | _, _ => .error "TypeError"

/-- Python `max(hd :: tl, key=lambda x: x.get(key, 0))`: keeps the earliest
maximal element, raising TypeError on incomparable key values. -/
def pyMaxByGet (key : String) (hd : Row) (tl : List Row) : Except String Row :=
  tl.foldlM (fun best r => do
    let g ← pyGtVal (bget r key (.num 0)) (bget best key (.num 0))
    pure (if g then r else best)) hd

/-- Python `d[key]`: raises KeyError when absent. -/
def pyIndex (r : Row) (k : String) : Except String Value :=
  match List.lookup k r with
  | some v => .ok v
  | none => .error "KeyError"

/-- Python truthiness of a JSON value. -/
def pyTruthy : Value → Bool
  | .null => false
  | .str s => !s.isEmpty
  | .num q => decide (q ≠ 0)

/-- Python `int()` truncation toward zero of an exact rational. -/
def pyTrunc (q : Rat) : Int := if q < 0 then -(⌊-q⌋) else ⌊q⌋

/-- Python `int(v)`: numbers truncate, numeric strings parse, everything
else raises (ValueError for strings, TypeError for None). -/
def pyInt : Value → Except String Int
  | .num q => .ok (pyTrunc q)
  | .str s =>
    match parseIntStr (trimStr s) with
    | some n => .ok n
    | none => .error "ValueError"
  | .null => .error "TypeError"

/-- Formatting with one decimal place (Python `f-string` `:.1f`, with float
rounding abstracted to exact rational rounding). -/
def fmt1 (q : Rat) : String :=
  let n : Int := round (q * 10)
  let sgn := if n < 0 then "-" else ""
  let m := n.natAbs
  let a := m / 10
  let b := m % 10
  s!"{sgn}{a}.{b}"

/-- Digit grouping helper: splits a reversed digit list into blocks of 3. -/
def chunk3 : List Char → List (List Char)
  | a :: b :: c :: d :: rest => [a, b, c] :: chunk3 (d :: rest)
  | l => [l]

/-- Formatting with thousands separators and no decimals (Python `:,.0f`). -/
def fmt0c (q : Rat) : String :=
  let n : Int := round q
  let sgn := if n < 0 then "-" else ""
  let ds := (toString n.natAbs).toList.reverse
  let grouped := (List.intercalate [','] (chunk3 ds)).reverse
  sgn ++ String.mk grouped

/-! ### Intent classifier (`detect_query_intent`, main.py lines 60-90) -/

/-- Keyword groups for the competitor-tracking category (regex alternations
are plain alternative words, split on the bar as in the source). -/
def competitorPatterns : List String :=
  ["competitor|rakip|competition", "price|fiyat|pricing", "market|pazar",
   "positioning|konum", "comparison|karşılaştırma", "advantage|avantaj"]

/-- Keyword groups for the campaign-performance category. -/
def campaignPatterns : List String :=
  ["campaign|kampanya|promotion", "roi|kar|return", "marketing|pazarlama",
   "discount|indirim", "performance|başarı", "effectiveness|etkinlik"]

/-- Keyword groups for the price-elasticity category. -/
def elasticityPatterns : List String :=
  ["elasticity|elastikiyet|optimization", "optimal|optimum", "demand|talep",
   "sensitivity|hassasiyet", "revenue|gelir", "margin|kar"]

/-- Keyword groups for the promotional-calendar category. -/
def calendarPatterns : List String :=
  ["calendar|takvim|schedule", "planning|planlama", "future|gelecek",
   "budget|bütçe", "timeline|zaman", "seasonal|mevsimsel"]

/-- The `patterns` dict of `detect_query_intent`, in insertion order. -/
def patterns : List (String × List String) :=
  [("competitor_tracking", competitorPatterns),
   ("campaign_performance", campaignPatterns),
   ("price_elasticity", elasticityPatterns),
   ("promotional_calendar", calendarPatterns)]

/-- One keyword group matches when any of its alternatives occurs in `q`. -/
def patMatch (q pat : String) : Bool := (splitBar pat).any (fun w => pyIn w q)

/-- A category matches when any of its keyword groups matches. -/
def catMatch (q : String) (plist : List String) : Bool := plist.any (patMatch q)

/-- The intent classifier: lower-cases the question (absent question becomes
the empty string), returns the first category in `patterns` order with a
matching keyword group, else the default `competitor_tracking`.
Lower-casing is ASCII (as in Lean core); the inputs used in the theorems
below contain no non-ASCII uppercase letters. -/
def detect_query_intent (question : Option String) : String :=
  match patterns.find? (fun ip => catMatch (lowerStr (question.getD "")) ip.2) with
  | some ip => ip.1
  | none => "competitor_tracking"

/-- Classifier as the specification words it: categories tested in fixed
priority order, first match wins, default on no match.  Used to check the
source classifier against the spec sentence. -/
def classifySpec (question : Option String) : String :=
  let q := lowerStr (question.getD "")
  if catMatch q competitorPatterns then "competitor_tracking"
  else if catMatch q campaignPatterns then "campaign_performance"
  else if catMatch q elasticityPatterns then "price_elasticity"
  else if catMatch q calendarPatterns then "promotional_calendar"
  else "competitor_tracking"

/-! ### Threshold registry and SQL-derived labels -/

/-- SuvariPricingMetrics.PRICE_ADVANTAGE_THRESHOLD. -/
def PRICE_ADVANTAGE_THRESHOLD : Rat := -15

/-- SuvariPricingMetrics.PRICE_DISADVANTAGE_THRESHOLD. -/
def PRICE_DISADVANTAGE_THRESHOLD : Rat := 10

/-- SuvariPricingMetrics.MARKET_SHARE_POSITIVE_IMPACT. -/
def MARKET_SHARE_POSITIVE_IMPACT : List String := ["Positive", "Very Positive"]

/-- The `competitive_position` CASE expression of `sql_competitor_tracking`
(main.py lines 170-176), as a function of the row's raw columns. -/
def competitive_position (price_gap_pct : Rat) (market_share_impact : String) : String :=
  if price_gap_pct ≤ -30 ∧ market_share_impact = "Very Positive" then
    "🏆 Dominant Market Position"
  else if price_gap_pct ≤ PRICE_ADVANTAGE_THRESHOLD ∧
      market_share_impact ∈ MARKET_SHARE_POSITIVE_IMPACT then
    "💰 Strong Price Advantage"
  else if -15 ≤ price_gap_pct ∧ price_gap_pct ≤ 15 then
    "⚖️ Competitive Parity"
  else if PRICE_DISADVANTAGE_THRESHOLD ≤ price_gap_pct then
    "🔴 Price Disadvantage"
  else
    "📊 Neutral Position"

/-! ### Insight synthesizer (`analyze_pricing_results`, main.py lines 593-738)

Each local list variable of the Python function becomes a named row
filter.  The body of the `try` block is a sequence of atomic steps (every
Python statement there either fully applies its appends or raises before
any append); `runSteps` runs them, stopping at the first raised exception
while keeping the accumulated lists, exactly like the enclosing
`try/except` that logs and falls through to the final truncated return. -/

/-- Accumulated insights, recommendations and alerts. -/
structure Analysis where
  insights : List String
  recommendations : List String
  alerts : List String
deriving DecidableEq, Repr

/-- Append one insight. -/
def Analysis.addI (a : Analysis) (s : String) : Analysis := { a with insights := a.insights ++ [s] }

/-- Append one recommendation. -/
def Analysis.addR (a : Analysis) (s : String) : Analysis :=
  { a with recommendations := a.recommendations ++ [s] }

/-- Append one alert. -/
def Analysis.addA (a : Analysis) (s : String) : Analysis := { a with alerts := a.alerts ++ [s] }

/-- One atomic statement of the `try` block. -/
abbrev Step := Analysis → Except String Analysis

/-- Run the statements in order; a raised exception keeps the lists
accumulated so far and skips the remaining statements (second component
records whether an exception was caught). -/
def runSteps : List Step → Analysis → Analysis × Bool
  | [], a => (a, false)
  | s :: rest, a =>
    match s a with
    | .ok a2 => runSteps rest a2
    | .error _ => (a, true)

/-- Python `[r for r in rows if needle in str(r.get(col, ''))]`. -/
def labelFilter (rows : List Row) (col needle : String) : List Row :=
  rows.filter (fun r => pyIn needle (pyStr (bget r col (.str ""))))

/-- Local `strong_advantages` of the competitor-tracking branch. -/
def strong_advantages (rows : List Row) : List Row :=
  labelFilter rows "competitive_position" "💰 Strong Price Advantage"

/-- Local `price_disadvantages`. -/
def price_disadvantages (rows : List Row) : List Row :=
  labelFilter rows "competitive_position" "🔴 Price Disadvantage"

/-- Local `premium_positions`. -/
def premium_positions (rows : List Row) : List Row :=
  labelFilter rows "value_proposition" "💎 Premium Value Proposition"

/-- Local `promo_pressure`. -/
def promo_pressure (rows : List Row) : List Row :=
  labelFilter rows "promotional_environment" "⚠️ Competitor Promotional Pressure"

/-- Local `price_gaps`: the non-None `price_gap_pct` values. -/
def price_gaps (rows : List Row) : List Value :=
  rows.filterMap (fun r =>
    let v := bget r "price_gap_pct" .null
    if v = .null then none else some v)

/-- Local `excellent_roi` of the campaign-performance branch. -/
def excellent_roi (rows : List Row) : List Row :=
  labelFilter rows "campaign_performance_tier" "🏆 Excellent Campaign ROI"

/-- Local `poor_performance`. -/
def poor_performance (rows : List Row) : List Row :=
  labelFilter rows "campaign_performance_tier" "📉 Poor Campaign Performance"

/-- Local `efficient_acquisition`. -/
def efficient_acquisition (rows : List Row) : List Row :=
  labelFilter rows "acquisition_effectiveness" "🎯 Efficient Customer Acquisition"

/-- Local `excellent_retention`. -/
def excellent_retention (rows : List Row) : List Row :=
  labelFilter rows "retention_performance" "🔁 Excellent Customer Retention"

/-- Local `price_increase_opps` of the price-elasticity branch. -/
def price_increase_opps (rows : List Row) : List Row :=
  labelFilter rows "pricing_strategy" "📈 Strong Price Increase Opportunity"

/-- Local `under_priced`. -/
def under_priced (rows : List Row) : List Row :=
  labelFilter rows "price_optimization_status" "💰 Under-priced Product"

/-- Local `high_revenue_impact`. -/
def high_revenue_impact (rows : List Row) : List Row :=
  labelFilter rows "revenue_opportunity_level" "🚀 High Revenue Impact Potential"

/-- Local `low_sensitivity`. -/
def low_sensitivity (rows : List Row) : List Row :=
  labelFilter rows "sensitivity_classification" "💎 Low Price Sensitivity"

/-- Local `high_impact_low_cost` of the promotional-calendar branch. -/
def high_impact_low_cost (rows : List Row) : List Row :=
  labelFilter rows "campaign_priority_tier" "🚀 High Impact Low Cost"

/-- Local `high_impact`. -/
def high_impact (rows : List Row) : List Row :=
  labelFilter rows "campaign_priority_tier" "⭐ High Impact Campaign"

/-- Local `competitive_battlegrounds`. -/
def competitive_battlegrounds (rows : List Row) : List Row :=
  labelFilter rows "competitive_intensity" "⚔️ Competitive Battleground"

/-- Local `major_investments`. -/
def major_investments (rows : List Row) : List Row :=
  labelFilter rows "budget_scale" "💰 Major Campaign Investment"

/-- Local `flash_campaigns`. -/
def flash_campaigns (rows : List Row) : List Row :=
  labelFilter rows "duration_strategy" "🚀 Flash Campaign"

/-- Local `extended_campaigns`. -/
def extended_campaigns (rows : List Row) : List Row :=
  labelFilter rows "duration_strategy" "📅 Extended Campaign Period"

/-- The competitor-tracking branch of the `try` block, statement by
statement (main.py lines 608-640). -/
def ctSteps (rows : List Row) : List Step :=
  [fun a => .ok (if (strong_advantages rows).isEmpty then a else
     (let n := (strong_advantages rows).length
      a.addI s!"💰 {n} kategoride güçlü fiyat avantajımız var")),
   fun a => .ok (if (price_disadvantages rows).isEmpty then a else
     (let n := (price_disadvantages rows).length
      (a.addA s!"🔴 {n} kategoride fiyat dezavantajımız bulunuyor").addR
        "Fiyat dezavantajı olan kategorilerde strateji revizyonu yapın")),
   fun a => .ok (if (premium_positions rows).isEmpty then a else
     (let n := (premium_positions rows).length
      a.addI s!"💎 {n} kategoride premium değer önerisi sunuyoruz")),
   fun a => .ok (if (promo_pressure rows).isEmpty then a else
     (let n := (promo_pressure rows).length
      (a.addA s!"⚠️ {n} kategoride rakip promosyon baskısı var").addR
        "Rakip promosyonlarına karşı hızlı response stratejileri geliştirin")),
   fun a =>
     if (price_gaps rows).isEmpty then .ok a
     else do
       let total ← pySum (price_gaps rows)
       let avg := total / ((price_gaps rows).length : Rat)
       if avg < -10 then
         let t := fmt1 |avg|
         pure (a.addI s!"📊 Ortalama fiyat avantajımız: %{t} rakiplerden düşük")
       else if avg > 10 then
         let t := fmt1 avg
         pure (a.addI s!"📊 Ortalama fiyat dezavantajımız: %{t} rakiplerden yüksek")
       else
         let t := fmt1 avg
         pure (a.addI s!"⚖️ Rakiplerle ortalama fiyat paritesi: %{t}")]

/-- The top-campaign insight string of the campaign-performance branch:
`max(excellent_roi, key=...)` followed by two dict indexings, any of which
can raise before the append happens. -/
def cpTop (hd : Row) (tl : List Row) : Except String String := do
  let top ← pyMaxByGet "roi_pct" hd tl
  let nv ← pyIndex top "campaign_name"
  let rv ← pyIndex top "roi_pct"
  let nm := pyStr nv
  let rs := pyStr rv
  pure s!"🏆 En başarılı kampanya: {nm} (ROI: %{rs})"

/-- The overall-ROI insight of the campaign-performance branch: two sums
(each can raise TypeError), then the guarded append. -/
def cpLast (rows : List Row) : Except String (List String) := do
  let tr ← pySum (rows.map (fun r => bget r "revenue_generated" (.num 0)))
  let tc ← pySum (rows.map (fun r => bget r "campaign_cost" (.num 0)))
  if tc > 0 then
    let t := fmt1 ((tr / tc - 1) * 100)
    pure [s!"📊 Toplam kampanya ROI: %{t}"]
  else
    pure []

/-- The campaign-performance branch (main.py lines 642-670). -/
def cpSteps (rows : List Row) : List Step :=
  [fun a =>
     match excellent_roi rows with
     | [] => .ok a
     | hd :: tl => do
       let s1 ← cpTop hd tl
       pure (a.addI s1),
   fun a => .ok (if (poor_performance rows).isEmpty then a else
     (let n := (poor_performance rows).length
      (a.addA s!"📉 {n} kampanya düşük performans gösteriyor").addR
        "Düşük ROI'li kampanya tiplerini analiz edin ve optimize edin")),
   fun a => .ok (if (efficient_acquisition rows).isEmpty then a else
     (let n := (efficient_acquisition rows).length
      a.addI s!"🎯 {n} kampanya verimli müşteri kazanımı sağlıyor")),
   fun a => .ok (if (excellent_retention rows).isEmpty then a else
     (let n := (excellent_retention rows).length
      a.addI s!"🔁 {n} kampanya mükemmel müşteri tutma oranı gösteriyor")),
   fun a => do
     let l ← cpLast rows
     pure { a with insights := a.insights ++ l }]

/-- The price-elasticity branch (main.py lines 672-695). -/
def peSteps (rows : List Row) : List Step :=
  [fun a => .ok (if (price_increase_opps rows).isEmpty then a else
     (let n := (price_increase_opps rows).length
      (a.addI s!"📈 {n} kategoride güçlü fiyat artırım fırsatı").addR
        "Fiyat artırım fırsatlarını değerlendirin ve pilot testler yapın")),
   fun a => .ok (if (under_priced rows).isEmpty then a else
     (let n := (under_priced rows).length
      (a.addI s!"💰 {n} ürün kategori optimal fiyatın altında").addR
        "Under-priced kategorilerde fiyat optimizasyonu yapın")),
   fun a => .ok (if (high_revenue_impact rows).isEmpty then a else
     (let n := (high_revenue_impact rows).length
      (a.addI s!"🚀 {n} kategori yüksek gelir etkisi potansiyeli taşıyor").addR
        "Yüksek etki potansiyelli kategorilerde A/B testleri başlatın")),
   fun a => .ok (if (low_sensitivity rows).isEmpty then a else
     (let n := (low_sensitivity rows).length
      (a.addI s!"💎 {n} kategori düşük fiyat hassasiyeti gösteriyor (premium fırsat)").addR
        "Düşük hassasiyetli kategorilerde premium pricing stratejileri değerlendirin"))]

/-- The `total_budget = sum(...)` of the promotional-calendar branch. -/
def pcBudget (rows : List Row) : Except String Rat :=
  pySum (rows.map (fun r => bget r "budget_usd" (.num 0)))

/-- The promotional-calendar branch (main.py lines 697-729).  Note the
second statement: the total high-impact-campaign insight is appended
unconditionally, whatever the count. -/
def pcSteps (rows : List Row) : List Step :=
  [fun a => .ok (if (high_impact_low_cost rows).isEmpty then a else
     (let n := (high_impact_low_cost rows).length
      (a.addI s!"🚀 {n} kampanya yüksek etki düşük maliyet kategorisinde").addR
        "High impact low cost kampanyaları öncelikle execute edin")),
   fun a => .ok
     (let n := (high_impact rows ++ high_impact_low_cost rows).length
      a.addI s!"⭐ Toplam {n} yüksek etkili kampanya planlandı"),
   fun a => .ok (if (competitive_battlegrounds rows).isEmpty then a else
     (let n := (competitive_battlegrounds rows).length
      (a.addA s!"⚔️ {n} kampanya yoğun rekabetli ortamda").addR
        "Yoğun rekabetli kampanyalar için diferansiyasyon stratejileri geliştirin")),
   fun a => do
     let tb ← pcBudget rows
     let t := fmt0c tb
     let a2 := a.addI s!"💰 Toplam planlanan kampanya bütçesi: ${t}"
     pure (if (major_investments rows).isEmpty then a2 else
       (let n := (major_investments rows).length
        a2.addI s!"💰 {n} major investment kampanyası planlandı")),
   fun a => .ok (if (flash_campaigns rows).isEmpty then a else
     (let n := (flash_campaigns rows).length
      a.addI s!"🚀 {n} flash kampanya planlandı")),
   fun a => .ok (if (extended_campaigns rows).isEmpty then a else
     (let n := (extended_campaigns rows).length
      a.addI s!"📅 {n} uzun dönemli kampanya planlandı"))]

/-- Dispatch on `query_type` (the chain of `elif` comparisons); anything
else runs no statements at all. -/
def analyzeRun (rows : List Row) (qt : Value) : Analysis × Bool :=
  let steps :=
    if qt = .str "competitor_tracking" then ctSteps rows
    else if qt = .str "campaign_performance" then cpSteps rows
    else if qt = .str "price_elasticity" then peSteps rows
    else if qt = .str "promotional_calendar" then pcSteps rows
    else []
  runSteps steps ⟨[], [], []⟩

/-- The lists accumulated by the `try` block (before truncation). -/
def analyzeRawAcc (rows : List Row) (qt : Value) : Analysis := (analyzeRun rows qt).1

/-- Whether the `try` block raised (and the exception was caught). -/
def analyzeErrored (rows : List Row) (qt : Value) : Bool := (analyzeRun rows qt).2

/-- `analyze_pricing_results`: the fixed fallback for an empty row set,
otherwise the accumulated lists truncated to 10/5/5. -/
def analyze_pricing_results (rows : List Row) (qt : Value) : Analysis :=
  if rows.isEmpty then
    { insights := ["Belirtilen kriterlere uygun pricing verisi bulunamadı"],
      recommendations := ["Tarih aralığını veya kriterleri genişletin"],
      alerts := [] }
  else
    let acc := analyzeRawAcc rows qt
    { insights := acc.insights.take 10,
      recommendations := acc.recommendations.take 5,
      alerts := acc.alerts.take 5 }

/-! ### Summary calculator (`calculate_pricing_summary`, main.py lines 740-788) -/

/-- Python `len(set(r.get(k) for r in rows))`. -/
def uniqCount (rows : List Row) (k : String) : Nat :=
  ((rows.map (fun r => bget r k .null)).dedup).length

/-- Python `len([r for r in rows if r.get(k, 0) <= c])`; the comparison of a
non-number with an int raises TypeError. -/
def countLe (rows : List Row) (k : String) (c : Rat) : Except String Nat :=
  rows.foldlM (fun n r =>
    match bget r k (.num 0) with
    | .num q => .ok (if q ≤ c then n + 1 else n)
    | _ => .error "TypeError") 0

/-- The category-specific `summary.update({...})` dict of
`calculate_pricing_summary`: evaluating the dict literal is all-or-nothing
(a raised exception leaves the base summary untouched). -/
def summaryExtra (rows : List Row) (qt : Value) : Except String (List (String × Value)) :=
  if qt = .str "competitor_tracking" then do
    let gapSum ← pySum (rows.map (fun r => bget r "price_gap_pct" (.num 0)))
    let adv ← countLe rows "price_gap_pct" (-15)
    .ok [("unique_competitors", .num (uniqCount rows "competitor" : Rat)),
         ("unique_markets", .num (uniqCount rows "market" : Rat)),
         ("avg_price_gap", .num (gapSum / (rows.length : Rat))),
         ("competitive_advantages", .num (adv : Rat))]
  else if qt = .str "campaign_performance" then do
    let tr ← pySum (rows.map (fun r => bget r "revenue_generated" (.num 0)))
    let tc ← pySum (rows.map (fun r => bget r "campaign_cost" (.num 0)))
    let rs ← pySum (rows.map (fun r => bget r "roi_pct" (.num 0)))
    .ok [("unique_campaigns", .num (uniqCount rows "campaign_name" : Rat)),
         ("total_revenue", .num tr),
         ("total_cost", .num tc),
         ("avg_roi", .num (rs / (rows.length : Rat)))]
  else if qt = .str "price_elasticity" then do
    let es ← pySum (rows.map (fun r => bget r "elasticity_coefficient" (.num 0)))
    let opps := rows.filter (fun r => bget r "recommendation" .null = .str "Increase Price")
    .ok [("price_points_analyzed", .num (rows.length : Rat)),
         ("unique_markets", .num (uniqCount rows "market" : Rat)),
         ("avg_elasticity", .num (es / (rows.length : Rat))),
         ("price_increase_opportunities", .num (opps.length : Rat))]
  else if qt = .str "promotional_calendar" then do
    let tb ← pySum (rows.map (fun r => bget r "budget_usd" (.num 0)))
    let us ← pySum (rows.map (fun r => bget r "expected_uplift_pct" (.num 0)))
    .ok [("planned_campaigns", .num (rows.length : Rat)),
         ("total_budget", .num tb),
         ("avg_expected_uplift", .num (us / (rows.length : Rat))),
         ("unique_markets", .num (uniqCount rows "target_market" : Rat))]
  else
    .ok []

/-- `calculate_pricing_summary`: `{"total_records": 0}` for an empty row
set, otherwise the base summary (always holding `total_records`, the query
type and the computation timestamp, passed in as `now`) extended by the
category-specific aggregates when their computation does not raise. -/
def calculate_pricing_summary (now : String) (rows : List Row) (qt : Value) :
    List (String × Value) :=
  if rows.isEmpty then [("total_records", .num 0)]
  else
    let base := [("total_records", .num (rows.length : Rat)),
                 ("query_type", qt),
                 ("timestamp", .str now)]
    match summaryExtra rows qt with
    | .ok d => base ++ d
    | .error _ => base

/-! ### Request orchestrator (`pricing_intel_query`, main.py lines 794-882)

The warehouse client is the external collaborator: it is passed in as a
function from the selected query builder and the filled limit parameter to
either rows or a raised exception. -/

/-- The four query builders. -/
inductive QueryFn where
  | competitor_tracking : QueryFn
  | campaign_performance : QueryFn
  | price_elasticity : QueryFn
  | promotional_calendar : QueryFn
deriving DecidableEq, Repr

/-- The `query_functions` alias table (8 aliases onto 4 builders). -/
def query_functions : List (String × QueryFn) :=
  [("competitor_tracking", .competitor_tracking),
   ("competitor_analysis", .competitor_tracking),
   ("campaign_performance", .campaign_performance),
   ("campaign_analysis", .campaign_performance),
   ("price_elasticity", .price_elasticity),
   ("price_optimization", .price_elasticity),
   ("promotional_calendar", .promotional_calendar),
   ("promotional_planning", .promotional_calendar)]

/-- Python `(question or "").lower()` routed into the classifier: a string
or None classifies, any other value raises AttributeError on `.lower()`. -/
def detectFromValue : Value → Except String String
  | .str s => .ok (detect_query_intent (some s))
  | .null => .ok (detect_query_intent none)
  | .num _ => .error "AttributeError"

/-- Line 804: `query_type = body.get("query_type") or detect_query_intent(question)`. -/
def resolve_query_type (body : List (String × Value)) : Except String Value :=
  let qv := bget body "question" (.str "")
  let raw := bget body "query_type" .null
  if pyTruthy raw then .ok raw
  else (detectFromValue qv).map .str

/-- Line 805: `limit = min(int(body.get("limit", 100)), 500)`. -/
def pyLimit (body : List (String × Value)) : Except String Int :=
  (pyInt (bget body "limit" (.num 100))).map (fun n => min n 500)

/-- Line 822: `query_functions.get(query_type, sql_competitor_tracking)`;
a non-string key is simply not found. -/
def chosen_builder (qtv : Value) : QueryFn :=
  match qtv with
  | .str s => (List.lookup s query_functions).getD .competitor_tracking
  | _ => .competitor_tracking

/-- The resolved query type and the builder the orchestrator invokes for a
request body, when parameter extraction does not raise. -/
def invoked_builder (body : List (String × Value)) : Except String QueryFn := do
  let qtv ← resolve_query_type body
  pure (chosen_builder qtv)

/-- The JSON envelope returned by the handler (fields used by the claims;
`builder` records which query builder was executed). -/
structure Response where
  status : Nat
  success : Bool
  query_type : Value
  error_type : Option String
  limit : Option Int
  builder : Option QueryFn
  summary : List (String × Value)
  insights : List String
  recommendations : List String
  alerts : List String
  row_count : Nat
deriving DecidableEq, Repr

/-- The HTTP-500 failure envelope (main.py lines 873-882). -/
def errResponse (e : String) (qtv : Value) : Response :=
  { status := 500, success := false, query_type := qtv, error_type := some e,
    limit := none, builder := none, summary := [], insights := [],
    recommendations := [], alerts := [], row_count := 0 }

/-- `pricing_intel_query`: parse the body, resolve the query type (the
classifier runs only when `query_type` is falsy), extract the limit,
select the builder, run the warehouse call `execQ`, then synthesize.  Any
raised exception becomes the 500 envelope carrying the exception class
name; before the query type is bound it is reported as "unknown". -/
def pricing_intel_query (execQ : QueryFn → Int → Except String (List Row))
    (now : String) (body : List (String × Value)) : Response :=
  match resolve_query_type body with
  | .error e => errResponse e (.str "unknown")
  | .ok qtv =>
    match pyLimit body with
    | .error e => errResponse e qtv
    | .ok lim =>
      let fn := chosen_builder qtv
      match execQ fn lim with
      | .error e => errResponse e qtv
      | .ok rows =>
        let analysis := analyze_pricing_results rows qtv
        { status := 200, success := true, query_type := qtv, error_type := none,
          limit := some lim, builder := some fn,
          summary := calculate_pricing_summary now rows qtv,
          insights := analysis.insights,
          recommendations := analysis.recommendations,
          alerts := analysis.alerts,
          row_count := rows.length }

/-! ### Guarded-append shapes of the synthesizer branches

These definitions restate each branch as an explicit concatenation in
which every label-count string is guarded by a nonzero-count test —
except the promotional-calendar total high-impact insight, which appears
unconditionally.  The theorems below prove the branch bodies equal to
these shapes for every row sequence. -/

/-- Shape of the mean-price-gap insight of the competitor branch. -/
def gapInsightList (rows : List Row) : List String :=
  if (price_gaps rows).isEmpty then []
  else
    match pySum (price_gaps rows) with
    | .error _ => []
    | .ok total =>
      let avg := total / ((price_gaps rows).length : Rat)
      if avg < -10 then
        let t := fmt1 |avg|
        [s!"📊 Ortalama fiyat avantajımız: %{t} rakiplerden düşük"]
      else if avg > 10 then
        let t := fmt1 avg
        [s!"📊 Ortalama fiyat dezavantajımız: %{t} rakiplerden yüksek"]
      else
        let t := fmt1 avg
        [s!"⚖️ Rakiplerle ortalama fiyat paritesi: %{t}"]

/-- Guarded shape of the competitor-tracking branch. -/
def ctShape (rows : List Row) : Analysis :=
  { insights :=
      (if (strong_advantages rows).isEmpty then [] else
        (let n := (strong_advantages rows).length
         [s!"💰 {n} kategoride güçlü fiyat avantajımız var"])) ++
      (if (premium_positions rows).isEmpty then [] else
        (let n := (premium_positions rows).length
         [s!"💎 {n} kategoride premium değer önerisi sunuyoruz"])) ++
      gapInsightList rows,
    recommendations :=
      (if (price_disadvantages rows).isEmpty then [] else
        ["Fiyat dezavantajı olan kategorilerde strateji revizyonu yapın"]) ++
      (if (promo_pressure rows).isEmpty then [] else
        ["Rakip promosyonlarına karşı hızlı response stratejileri geliştirin"]),
    alerts :=
      (if (price_disadvantages rows).isEmpty then [] else
        (let n := (price_disadvantages rows).length
         [s!"🔴 {n} kategoride fiyat dezavantajımız bulunuyor"])) ++
      (if (promo_pressure rows).isEmpty then [] else
        (let n := (promo_pressure rows).length
         [s!"⚠️ {n} kategoride rakip promosyon baskısı var"])) }

/-- Keeps the payload of a non-raising last statement, nothing otherwise. -/
def okD (e : Except String (List String)) : List String :=
  match e with
  | .ok l => l
  | .error _ => []

/-- Guarded shape of the campaign-performance branch: a raised exception in
the first statement aborts the whole branch with nothing accumulated; one
in the last drops only the overall-ROI insight. -/
def cpShape (rows : List Row) : Analysis :=
  let midI :=
    (if (efficient_acquisition rows).isEmpty then [] else
      (let n := (efficient_acquisition rows).length
       [s!"🎯 {n} kampanya verimli müşteri kazanımı sağlıyor"])) ++
    (if (excellent_retention rows).isEmpty then [] else
      (let n := (excellent_retention rows).length
       [s!"🔁 {n} kampanya mükemmel müşteri tutma oranı gösteriyor"]))
  let midR :=
    if (poor_performance rows).isEmpty then [] else
      ["Düşük ROI'li kampanya tiplerini analiz edin ve optimize edin"]
  let midA :=
    if (poor_performance rows).isEmpty then [] else
      (let n := (poor_performance rows).length
       [s!"📉 {n} kampanya düşük performans gösteriyor"])
  match excellent_roi rows with
  | [] => { insights := midI ++ okD (cpLast rows), recommendations := midR, alerts := midA }
  | hd :: tl =>
    match cpTop hd tl with
    | .error _ => { insights := [], recommendations := [], alerts := [] }
    | .ok s1 =>
      { insights := s1 :: (midI ++ okD (cpLast rows)),
        recommendations := midR, alerts := midA }

/-- Guarded shape of the price-elasticity branch (no statement can raise). -/
def peShape (rows : List Row) : Analysis :=
  { insights :=
      (if (price_increase_opps rows).isEmpty then [] else
        (let n := (price_increase_opps rows).length
         [s!"📈 {n} kategoride güçlü fiyat artırım fırsatı"])) ++
      (if (under_priced rows).isEmpty then [] else
        (let n := (under_priced rows).length
         [s!"💰 {n} ürün kategori optimal fiyatın altında"])) ++
      (if (high_revenue_impact rows).isEmpty then [] else
        (let n := (high_revenue_impact rows).length
         [s!"🚀 {n} kategori yüksek gelir etkisi potansiyeli taşıyor"])) ++
      (if (low_sensitivity rows).isEmpty then [] else
        (let n := (low_sensitivity rows).length
         [s!"💎 {n} kategori düşük fiyat hassasiyeti gösteriyor (premium fırsat)"])),
    recommendations :=
      (if (price_increase_opps rows).isEmpty then [] else
        ["Fiyat artırım fırsatlarını değerlendirin ve pilot testler yapın"]) ++
      (if (under_priced rows).isEmpty then [] else
        ["Under-priced kategorilerde fiyat optimizasyonu yapın"]) ++
      (if (high_revenue_impact rows).isEmpty then [] else
        ["Yüksek etki potansiyelli kategorilerde A/B testleri başlatın"]) ++
      (if (low_sensitivity rows).isEmpty then [] else
        ["Düşük hassasiyetli kategorilerde premium pricing stratejileri değerlendirin"]),
    alerts := [] }

/-- Guarded shape of the promotional-calendar branch.  The starred
total-high-impact insight is unconditional (reports the count even when it
is zero); a raising budget sum drops the budget and timing insights but
keeps everything before it. -/
def pcShape (rows : List Row) : Analysis :=
  let preI :=
    (if (high_impact_low_cost rows).isEmpty then [] else
      (let n := (high_impact_low_cost rows).length
       [s!"🚀 {n} kampanya yüksek etki düşük maliyet kategorisinde"])) ++
    (let n := (high_impact rows ++ high_impact_low_cost rows).length
     [s!"⭐ Toplam {n} yüksek etkili kampanya planlandı"])
  let preR :=
    (if (high_impact_low_cost rows).isEmpty then [] else
      ["High impact low cost kampanyaları öncelikle execute edin"]) ++
    (if (competitive_battlegrounds rows).isEmpty then [] else
      ["Yoğun rekabetli kampanyalar için diferansiyasyon stratejileri geliştirin"])
  let preA :=
    if (competitive_battlegrounds rows).isEmpty then [] else
      (let n := (competitive_battlegrounds rows).length
       [s!"⚔️ {n} kampanya yoğun rekabetli ortamda"])
  match pcBudget rows with
  | .error _ => { insights := preI, recommendations := preR, alerts := preA }
  | .ok tb =>
    let t := fmt0c tb
    { insights :=
        preI ++ [s!"💰 Toplam planlanan kampanya bütçesi: ${t}"] ++
        (if (major_investments rows).isEmpty then [] else
          (let n := (major_investments rows).length
           [s!"💰 {n} major investment kampanyası planlandı"])) ++
        (if (flash_campaigns rows).isEmpty then [] else
          (let n := (flash_campaigns rows).length
           [s!"🚀 {n} flash kampanya planlandı"])) ++
        (if (extended_campaigns rows).isEmpty then [] else
          (let n := (extended_campaigns rows).length
           [s!"📅 {n} uzun dönemli kampanya planlandı"])),
      recommendations := preR, alerts := preA }

/-! ## Theorems -/

/-- Truncation toward zero is the identity on integers. -/
theorem pyTrunc_intCast (n : Int) : pyTrunc ((n : Rat)) = n := by
  unfold pyTrunc
  split
  · rw [show (-(n : Rat)) = ((-n : Int) : Rat) by push_cast; ring, Int.floor_intCast]
    exact neg_neg n
  · exact Int.floor_intCast n

/-- Claim C2: the effective limit is `min(requested, 500)` with only an
upper clamp and default 100 when the field is absent: 10000 clamps to 500,
-5 passes through unchanged, a missing field gives 100, and any integer
request gives `min n 500`. -/
theorem C2_theorem :
    pyLimit [("limit", Value.num 10000)] = .ok 500 ∧
    pyLimit [("limit", Value.num (-5))] = .ok (-5) ∧
    pyLimit ([] : List (String × Value)) = .ok 100 ∧
    ∀ n : Int, pyLimit [("limit", Value.num (n : Rat))] = .ok (min n 500) := by
  refine ⟨rfl, rfl, rfl, ?_⟩
  intro n
  have hb : bget [("limit", Value.num (n : Rat))] "limit" (Value.num 100) =
      Value.num (n : Rat) := rfl
  simp [pyLimit, pyInt, hb, pyTrunc_intCast, Except.map]

/-- Claim C3: for every category value, the synthesizer on an empty row
sequence returns exactly the fixed no-data insight, the fixed generic
recommendation, and no alerts. -/
theorem C3_theorem : ∀ qt : Value,
    analyze_pricing_results [] qt =
      { insights := ["Belirtilen kriterlere uygun pricing verisi bulunamadı"],
        recommendations := ["Tarih aralığını veya kriterleri genişletin"],
        alerts := [] } ∧
    (analyze_pricing_results [] qt).insights.length = 1 ∧
    (analyze_pricing_results [] qt).recommendations.length = 1 ∧
    (analyze_pricing_results [] qt).alerts.length = 0 := by
  intro qt
  exact ⟨rfl, rfl, rfl, rfl⟩

/-- Claim C6: a competitor-tracking row with price gap -31 and market share
impact "Very Positive" is labeled by the first branch of the CASE list,
"Dominant Market Position", although the broader "Strong Price Advantage"
condition also holds. -/
theorem C6_theorem :
    competitive_position (-31) "Very Positive" = "🏆 Dominant Market Position" ∧
    competitive_position (-31) "Very Positive" ≠ "💰 Strong Price Advantage" ∧
    ((-31 : Rat) ≤ PRICE_ADVANTAGE_THRESHOLD ∧
      "Very Positive" ∈ MARKET_SHARE_POSITIVE_IMPACT) := by
  refine ⟨rfl, by decide, by decide, by decide⟩

/-- Claim C4: the intent classifier is total and deterministic; for the
absent and the empty question it returns the default competitor-tracking
category, and on every input it agrees with the first-matching-category,
priority-ordered, default-on-no-match specification `classifySpec`. -/
theorem C4_theorem :
    detect_query_intent none = "competitor_tracking" ∧
    detect_query_intent (some "") = "competitor_tracking" ∧
    ∀ oq : Option String, detect_query_intent oq = classifySpec oq := by
  refine ⟨rfl, rfl, ?_⟩
  intro oq
  unfold detect_query_intent classifySpec patterns
  cases h1 : catMatch (lowerStr (oq.getD "")) competitorPatterns <;>
  cases h2 : catMatch (lowerStr (oq.getD "")) campaignPatterns <;>
  cases h3 : catMatch (lowerStr (oq.getD "")) elasticityPatterns <;>
  cases h4 : catMatch (lowerStr (oq.getD "")) calendarPatterns <;>
  simp [List.find?, h1, h2, h3, h4]

/-- Claim C10: the classifier always lands on one of the four builder keys,
so the alias-table lookup always succeeds and the default-builder fallback
of the orchestrator is unreachable whenever the builder is chosen through
classification. -/
theorem C10_theorem : ∀ oq : Option String, ∃ fn : QueryFn,
    List.lookup (detect_query_intent oq) query_functions = some fn ∧
    chosen_builder (Value.str (detect_query_intent oq)) = fn := by
  intro oq
  have hmem : detect_query_intent oq = "competitor_tracking" ∨
      detect_query_intent oq = "campaign_performance" ∨
      detect_query_intent oq = "price_elasticity" ∨
      detect_query_intent oq = "promotional_calendar" := by
    unfold detect_query_intent
    cases hf : List.find? (fun ip => catMatch (lowerStr (oq.getD "")) ip.2) patterns with
    | none => simp [hf]
    | some ip =>
      have hm := List.mem_of_find?_eq_some hf
      simp only [patterns, List.mem_cons, List.not_mem_nil, or_false] at hm
      rcases hm with hm | hm | hm | hm <;> simp [hf, hm]
  rcases hmem with h | h | h | h <;> rw [h]
  · exact ⟨QueryFn.competitor_tracking, rfl, rfl⟩
  · exact ⟨QueryFn.campaign_performance, rfl, rfl⟩
  · exact ⟨QueryFn.price_elasticity, rfl, rfl⟩
  · exact ⟨QueryFn.promotional_calendar, rfl, rfl⟩

/-- Claim C9: a limit field that integer conversion rejects (such as the
string "abc" or null) makes the handler return the HTTP 500 failure
envelope with error type set to the conversion exception class name,
rather than falling back to the default limit of 100. -/
theorem C9_theorem : ∀ (execQ : QueryFn → Int → Except String (List Row))
    (now : String) (body : List (String × Value)) (v : Value) (e : String),
    resolve_query_type body = .ok v → pyLimit body = .error e →
    pricing_intel_query execQ now body = errResponse e v ∧
    (pricing_intel_query execQ now body).status = 500 ∧
    (pricing_intel_query execQ now body).success = false ∧
    (pricing_intel_query execQ now body).error_type = some e ∧
    (pricing_intel_query execQ now body).limit = none := by
  intro execQ now body v e h1 h2
  have h : pricing_intel_query execQ now body = errResponse e v := by
    unfold pricing_intel_query
    rw [h1, h2]
  exact ⟨h, by rw [h]; rfl, by rw [h]; rfl, by rw [h]; rfl, by rw [h]; rfl⟩

/-- Witness for C9: concrete bodies whose limit is the string "abc" and
null; the former yields the ValueError envelope through the theorem. -/
theorem C9_witness :
    resolve_query_type [("limit", Value.str "abc")] = .ok (Value.str "competitor_tracking") ∧
    pyLimit [("limit", Value.str "abc")] = .error "ValueError" ∧
    pyLimit [("limit", Value.null)] = .error "TypeError" ∧
    pricing_intel_query (fun _ _ => .ok []) "ts" [("limit", Value.str "abc")] =
      errResponse "ValueError" (Value.str "competitor_tracking") := by
  refine ⟨rfl, rfl, rfl, ?_⟩
  exact (C9_theorem (fun _ _ => .ok []) "ts" [("limit", Value.str "abc")]
    (Value.str "competitor_tracking") "ValueError" rfl rfl).1

/-- Refutation of claim C1 as stated: with question "campaign roi" (which
the classifier maps to campaign performance) and the unrecognized
query type "bogus", the orchestrator invokes the default competitor
tracking builder, not the one classification would select. -/
theorem C1_counterexample :
    invoked_builder [("question", Value.str "campaign roi"), ("query_type", Value.str "bogus")] =
      .ok QueryFn.competitor_tracking ∧
    detect_query_intent (some "campaign roi") = "campaign_performance" ∧
    chosen_builder (Value.str (detect_query_intent (some "campaign roi"))) =
      QueryFn.campaign_performance ∧
    (pricing_intel_query (fun _ _ => .ok []) "ts"
        [("question", Value.str "campaign roi"), ("query_type", Value.str "bogus")]).builder =
      some QueryFn.competitor_tracking ∧
    QueryFn.competitor_tracking ≠ QueryFn.campaign_performance := by
  exact ⟨rfl, rfl, rfl, rfl, by decide⟩

/-- Claim C1 as amended: a truthy unrecognized query type string skips
classification and falls back to the default competitor-tracking builder
without failing; classification selects the builder only when the
query type field is absent (or falsy). -/
theorem C1_theorem : ∀ q s : String, s.isEmpty = false →
    List.lookup s query_functions = none →
    resolve_query_type [("question", Value.str q), ("query_type", Value.str s)] =
      .ok (Value.str s) ∧
    chosen_builder (Value.str s) = QueryFn.competitor_tracking ∧
    resolve_query_type [("question", Value.str q)] =
      .ok (Value.str (detect_query_intent (some q))) ∧
    invoked_builder [("question", Value.str q)] =
      .ok (chosen_builder (Value.str (detect_query_intent (some q)))) ∧
    (pricing_intel_query (fun _ _ => .ok []) "ts"
        [("question", Value.str q), ("query_type", Value.str s)]).status = 200 := by
  intro q s hs hl
  have ht : pyTruthy (Value.str s) = true := by simp [pyTruthy, hs]
  have h1 : resolve_query_type [("question", Value.str q), ("query_type", Value.str s)] =
      .ok (Value.str s) := by
    have hb : bget [("question", Value.str q), ("query_type", Value.str s)]
        "query_type" Value.null = Value.str s := rfl
    unfold resolve_query_type
    simp [hb, ht]
  have h2 : chosen_builder (Value.str s) = QueryFn.competitor_tracking := by
    simp [chosen_builder, hl]
  have h3 : resolve_query_type [("question", Value.str q)] =
      .ok (Value.str (detect_query_intent (some q))) := by
    have hb : bget [("question", Value.str q)] "query_type" Value.null = Value.null := rfl
    have hq : bget [("question", Value.str q)] "question" (Value.str "") = Value.str q := rfl
    unfold resolve_query_type
    simp [hb, hq, pyTruthy, detectFromValue, Except.map]
  have h4 : invoked_builder [("question", Value.str q)] =
      .ok (chosen_builder (Value.str (detect_query_intent (some q)))) := by
    unfold invoked_builder
    rw [h3]
    rfl
  have h5 : (pricing_intel_query (fun _ _ => .ok []) "ts"
      [("question", Value.str q), ("query_type", Value.str s)]).status = 200 := by
    unfold pricing_intel_query
    rw [h1]
    have hL : pyLimit [("question", Value.str q), ("query_type", Value.str s)] = .ok 100 := rfl
    rw [hL]
  exact ⟨h1, h2, h3, h4, h5⟩

/-- Witness for C1: the amended theorem applied at the concrete
unrecognized query type "bogus". -/
theorem C1_witness :
    ("bogus" : String).isEmpty = false ∧
    List.lookup "bogus" query_functions = none ∧
    resolve_query_type
        [("question", Value.str "campaign roi"), ("query_type", Value.str "bogus")] =
      .ok (Value.str "bogus") ∧
    chosen_builder (Value.str "bogus") = QueryFn.competitor_tracking := by
  have h := C1_theorem "campaign roi" "bogus" rfl rfl
  exact ⟨rfl, rfl, h.1, h.2.1⟩

/-- A competitor-tracking row whose label fires the first insight but whose
price gap is a non-numeric string, so both the synthesizer sum and the
summary aggregation raise TypeError midway. -/
def c7rows : List Row :=
  [[("competitive_position", Value.str "💰 Strong Price Advantage"),
    ("price_gap_pct", Value.str "bad")]]

/-- The summary always carries the total record count, whatever the rows
contain and whether or not the category aggregation raised. -/
theorem total_records_lookup : ∀ (now : String) (rows : List Row) (qt : Value),
    List.lookup "total_records" (calculate_pricing_summary now rows qt) =
      some (Value.num (rows.length : Rat)) := by
  intro now rows qt
  cases he : rows.isEmpty
  · unfold calculate_pricing_summary
    rw [he]
    cases hx : summaryExtra rows qt <;> simp [List.lookup]
  · have hnil : rows = [] := List.isEmpty_iff.mp he
    subst hnil
    simp [calculate_pricing_summary, List.lookup]

/-- Claim C7: the synthesizer and the summary calculator never raise; a
caught internal exception leaves the partial accumulation (returned
truncated) and a summary still carrying total records, shown both in
general and at a concrete malformed input where the exception does fire. -/
theorem C7_theorem : ∀ (now : String) (rows : List Row) (qt : Value),
    List.lookup "total_records" (calculate_pricing_summary now rows qt) =
      some (Value.num (rows.length : Rat)) ∧
    (rows.isEmpty = false →
      analyze_pricing_results rows qt =
        { insights := (analyzeRawAcc rows qt).insights.take 10,
          recommendations := (analyzeRawAcc rows qt).recommendations.take 5,
          alerts := (analyzeRawAcc rows qt).alerts.take 5 }) ∧
    analyzeErrored c7rows (Value.str "competitor_tracking") = true ∧
    analyze_pricing_results c7rows (Value.str "competitor_tracking") =
      { insights := ["💰 1 kategoride güçlü fiyat avantajımız var"],
        recommendations := [], alerts := [] } ∧
    summaryExtra c7rows (Value.str "competitor_tracking") = .error "TypeError" ∧
    List.lookup "total_records"
        (calculate_pricing_summary now c7rows (Value.str "competitor_tracking")) =
      some (Value.num 1) := by
  intro now rows qt
  refine ⟨total_records_lookup now rows qt, ?_, rfl, rfl, rfl, ?_⟩
  · intro h
    simp [analyze_pricing_results, h]
  · have h := total_records_lookup now c7rows (Value.str "competitor_tracking")
    simpa [c7rows] using h

/-- Witness for C7: the nonempty-rows truncation conjunct discharged at the
malformed concrete input. -/
theorem C7_witness :
    c7rows.isEmpty = false ∧
    analyze_pricing_results c7rows (Value.str "competitor_tracking") =
      { insights := (analyzeRawAcc c7rows (Value.str "competitor_tracking")).insights.take 10,
        recommendations :=
          (analyzeRawAcc c7rows (Value.str "competitor_tracking")).recommendations.take 5,
        alerts := (analyzeRawAcc c7rows (Value.str "competitor_tracking")).alerts.take 5 } := by
  exact ⟨rfl, (C7_theorem ("ts") c7rows (Value.str "competitor_tracking")).2.1 rfl⟩

/-- Claim C8: the returned analysis never exceeds 10 insights, 5
recommendations and 5 alerts, and on nonempty input each sequence is an
initial segment of the accumulated (insertion-ordered) sequence. -/
theorem C8_theorem : ∀ (rows : List Row) (qt : Value),
    ((analyze_pricing_results rows qt).insights.length ≤ 10 ∧
     (analyze_pricing_results rows qt).recommendations.length ≤ 5 ∧
     (analyze_pricing_results rows qt).alerts.length ≤ 5) ∧
    (rows.isEmpty = false →
      (∃ t, (analyze_pricing_results rows qt).insights ++ t =
        (analyzeRawAcc rows qt).insights) ∧
      (∃ t, (analyze_pricing_results rows qt).recommendations ++ t =
        (analyzeRawAcc rows qt).recommendations) ∧
      (∃ t, (analyze_pricing_results rows qt).alerts ++ t =
        (analyzeRawAcc rows qt).alerts)) := by
  intro rows qt
  constructor
  · cases he : rows.isEmpty <;> simp [analyze_pricing_results, he, List.length_take]
  · intro h
    have hx : analyze_pricing_results rows qt =
        { insights := (analyzeRawAcc rows qt).insights.take 10,
          recommendations := (analyzeRawAcc rows qt).recommendations.take 5,
          alerts := (analyzeRawAcc rows qt).alerts.take 5 } := by
      simp [analyze_pricing_results, h]
    rw [hx]
    exact ⟨⟨(analyzeRawAcc rows qt).insights.drop 10, List.take_append_drop 10 _⟩,
           ⟨(analyzeRawAcc rows qt).recommendations.drop 5, List.take_append_drop 5 _⟩,
           ⟨(analyzeRawAcc rows qt).alerts.drop 5, List.take_append_drop 5 _⟩⟩

/-- Witness for C8: the prefix conjuncts discharged at a concrete one-row
input. -/
theorem C8_witness :
    ([[("k", Value.null)]] : List Row).isEmpty = false ∧
    ((∃ t, (analyze_pricing_results [[("k", Value.null)]] Value.null).insights ++ t =
      (analyzeRawAcc [[("k", Value.null)]] Value.null).insights) ∧
     (∃ t, (analyze_pricing_results [[("k", Value.null)]] Value.null).recommendations ++ t =
      (analyzeRawAcc [[("k", Value.null)]] Value.null).recommendations) ∧
     (∃ t, (analyze_pricing_results [[("k", Value.null)]] Value.null).alerts ++ t =
      (analyzeRawAcc [[("k", Value.null)]] Value.null).alerts)) := by
  exact ⟨rfl, (C8_theorem [[("k", Value.null)]] Value.null).2 rfl⟩

/-- A promotional-calendar row none of whose labels match any high-impact
tier, so every label count of that branch is zero. -/
def c5rows : List Row := [[("campaign_priority_tier", Value.str "📉 Low Impact Campaign")]]

/-- Refutation of claim C5 as stated: on a nonempty promotional-calendar
row set matching no high-impact label, the synthesizer still emits the
starred total insight reporting the count zero. -/
theorem C5_counterexample :
    "⭐ Toplam 0 yüksek etkili kampanya planlandı" ∈
      (analyze_pricing_results c5rows (Value.str "promotional_calendar")).insights ∧
    (high_impact c5rows).length = 0 ∧
    (high_impact_low_cost c5rows).length = 0 := by
  refine ⟨?_, rfl, rfl⟩
  exact List.mem_cons_self _ _

/-- The competitor-tracking branch accumulates exactly its guarded shape. -/
theorem ct_shape_eq (rows : List Row) :
    analyzeRawAcc rows (Value.str "competitor_tracking") = ctShape rows := by
  have hb : analyzeRawAcc rows (Value.str "competitor_tracking") =
      (runSteps (ctSteps rows) ⟨[], [], []⟩).1 := rfl
  rw [hb]
  unfold ctSteps ctShape gapInsightList
  cases h1 : (strong_advantages rows).isEmpty <;>
  cases h2 : (price_disadvantages rows).isEmpty <;>
  cases h3 : (premium_positions rows).isEmpty <;>
  cases h4 : (promo_pressure rows).isEmpty <;>
  cases h5 : (price_gaps rows).isEmpty <;>
  rcases hs : pySum (price_gaps rows) with e | tot <;>
  simp [runSteps, h1, h2, h3, h4, h5, hs, Analysis.addI, Analysis.addA, Analysis.addR,
        Except.bind, bind, pure, Except.pure] <;>
  split_ifs <;>
  simp [Analysis.addI]

/-- The campaign-performance branch accumulates exactly its guarded shape. -/
theorem cp_shape_eq (rows : List Row) :
    analyzeRawAcc rows (Value.str "campaign_performance") = cpShape rows := by
  have hb : analyzeRawAcc rows (Value.str "campaign_performance") =
      (runSteps (cpSteps rows) ⟨[], [], []⟩).1 := rfl
  rw [hb]
  unfold cpSteps cpShape
  rcases hE : excellent_roi rows with _ | ⟨hd, tl⟩
  · rcases hL : cpLast rows with e2 | l5 <;>
    cases h2 : (poor_performance rows).isEmpty <;>
    cases h3 : (efficient_acquisition rows).isEmpty <;>
    cases h4 : (excellent_retention rows).isEmpty <;>
    simp [runSteps, hE, hL, h2, h3, h4, okD, Analysis.addI, Analysis.addA, Analysis.addR,
          Except.bind, bind, pure, Except.pure]
  · rcases hT : cpTop hd tl with e | s1
    · simp [runSteps, hE, hT, Except.bind, bind]
    · rcases hL : cpLast rows with e2 | l5 <;>
      cases h2 : (poor_performance rows).isEmpty <;>
      cases h3 : (efficient_acquisition rows).isEmpty <;>
      cases h4 : (excellent_retention rows).isEmpty <;>
      simp [runSteps, hE, hT, hL, h2, h3, h4, okD, Analysis.addI, Analysis.addA,
            Analysis.addR, Except.bind, bind, pure, Except.pure]

/-- The price-elasticity branch accumulates exactly its guarded shape. -/
theorem pe_shape_eq (rows : List Row) :
    analyzeRawAcc rows (Value.str "price_elasticity") = peShape rows := by
  have hb : analyzeRawAcc rows (Value.str "price_elasticity") =
      (runSteps (peSteps rows) ⟨[], [], []⟩).1 := rfl
  rw [hb]
  unfold peSteps peShape
  cases h1 : (price_increase_opps rows).isEmpty <;>
  cases h2 : (under_priced rows).isEmpty <;>
  cases h3 : (high_revenue_impact rows).isEmpty <;>
  cases h4 : (low_sensitivity rows).isEmpty <;>
  simp [runSteps, h1, h2, h3, h4, Analysis.addI, Analysis.addA, Analysis.addR]

/-- The promotional-calendar branch accumulates exactly its shape, with the
starred total insight unconditional. -/
theorem pc_shape_eq (rows : List Row) :
    analyzeRawAcc rows (Value.str "promotional_calendar") = pcShape rows := by
  have hb : analyzeRawAcc rows (Value.str "promotional_calendar") =
      (runSteps (pcSteps rows) ⟨[], [], []⟩).1 := rfl
  rw [hb]
  unfold pcSteps pcShape
  cases h1 : (high_impact_low_cost rows).isEmpty <;>
  cases h3 : (competitive_battlegrounds rows).isEmpty <;>
  cases h4 : (major_investments rows).isEmpty <;>
  cases h5 : (flash_campaigns rows).isEmpty <;>
  cases h6 : (extended_campaigns rows).isEmpty <;>
  rcases hs : pcBudget rows with e | tb <;>
  simp [runSteps, h1, h3, h4, h5, h6, hs, Analysis.addI, Analysis.addA, Analysis.addR,
        Except.bind, bind, pure, Except.pure]

/-- Claim C5 as amended: every branch accumulates exactly its guarded
shape, in which each label-count string appears only under a
nonzero-count guard — except the promotional-calendar total high-impact
insight, which is appended unconditionally and may report zero. -/
theorem C5_theorem : ∀ rows : List Row,
    analyzeRawAcc rows (Value.str "competitor_tracking") = ctShape rows ∧
    analyzeRawAcc rows (Value.str "campaign_performance") = cpShape rows ∧
    analyzeRawAcc rows (Value.str "price_elasticity") = peShape rows ∧
    analyzeRawAcc rows (Value.str "promotional_calendar") = pcShape rows := by
  intro rows
  exact ⟨ct_shape_eq rows, cp_shape_eq rows, pe_shape_eq rows, pc_shape_eq rows⟩
